import Mathlib

/-!
Verification of the GitHubStreaker scheduling engine.

The embedded heatmap painter script (`_PAINTER_SCRIPT` in
`github_streaker_tui/generator.py`) is modelled as a pure function
`HeatmapPainter.main` from a `TickInput` (the parsed `pattern.json`
fields, today's date, the ledger query result, the on-disk record
count, and the staging outcome) to a `TickOutput` (the process exit
code plus the list of file-system / git effects the run performs, in
order).  Dates are integers (days); a grid cell is `Option Int`
(`none` models a JSON value on which Python's `int()` raises).
`_count_commits_today` is modelled over the outcome of the `git log`
subprocess call.  `_resize_pattern`, `_blank_pattern` and
`_load_existing_pattern` from `main.py` are modelled directly.
-/

namespace HeatmapPainter

/-- An observable effect of one painter run, in program order. -/
inductive Eff where
  | appendLine (path : String) (line : String)
  | gitAdd (path : String)
  | gitCommit (msg : String)
deriving DecidableEq

/-- Result of one painter run: process exit code and effect trace. -/
structure TickOutput where
  exitCode : Nat
  effects : List Eff
deriving DecidableEq

/-- Result of resolving today's quota: config error (exit 1),
terminate-with-no-action (exit 0), or a concrete needed count. -/
inductive NeedRes where
  | err
  | stop
  | need (n : Int)
deriving DecidableEq

/-- Input of one painter run: the parsed `pattern.json` fields, the
environment, the ledger answer, the on-disk state, whether `git add`
will succeed, and the timestamp / random-token streams consumed by
the write loop. -/
structure TickInput where
  startDate : Int
  mode : String
  pattern : List (List (Option Int))
  dailyGoal : Int
  today : Int
  todayIso : String
  dataDir : String
  commitsToday : Option Nat
  existing : Nat
  gitAddOk : Bool
  stamps : Nat → String
  tokens : Nat → String

/-- ASCII lowercasing, Python's `str.lower` on the mode string. -/
def lowercase (s : String) : String :=
  String.mk (s.data.map Char.toLower)

/-- `mode = (data.get("mode") or "pattern").lower()`, defaulted back to
`"pattern"` when not one of the two known modes. -/
def normMode (mode : String) : String :=
  let m := lowercase (if mode = "" then "pattern" else mode)
  if m = "pattern" ∨ m = "daily" then m else "pattern"

/-- `data_dir = os.environ.get("DATA_DIR") or "heatmap"`. -/
def effDataDir (dataDir : String) : String :=
  if dataDir = "" then "heatmap" else dataDir

/-- `out_file = out_dir / f"{today.isoformat()}.txt"`. -/
def artifactPath (dataDir todayIso : String) : String :=
  dataDir ++ "/" ++ todayIso ++ ".txt"

/-- One record line: `f"{stamp} #{idx}/{need} {payload}\n"`. -/
def lineFor (stamp : String) (idx : Nat) (need : Int) (payload : String) : String :=
  stamp ++ " #" ++ toString idx ++ "/" ++ toString need ++ " " ++ payload ++ "\n"

/-- Quota resolution for `delta = (today - start_date).days ≥ 0`:
the daily branch (`need = max(0, daily_goal)`, error when ≤ 0) and the
pattern branch (row-count check, ragged check over the first 7 rows,
zero-width stop, `col = delta // 7`, `row = delta % 7`, completed stop,
`int(pattern[row][col])` with non-numeric cells coerced to 0). -/
def resolveNeed (mode : String) (pattern : List (List (Option Int)))
    (dailyGoal : Int) (delta : Nat) : NeedRes :=
  if mode = "daily" then
    let need := max 0 dailyGoal
    if need ≤ 0 then NeedRes.err else NeedRes.need need
  else
    if pattern.length < 7 then NeedRes.err
    else
      let firstRow := pattern.headD []
      if (pattern.take 7).any (fun row => row.length ≠ firstRow.length) then NeedRes.err
      else
        let cols := firstRow.length
        if cols = 0 then NeedRes.stop
        else
          let col := delta / 7
          let row := delta % 7
          if cols ≤ col then NeedRes.stop
          else
            match (pattern.getD row []).getD col none with
            | some v => NeedRes.need v
            | none => NeedRes.need 0

/-- The painter script's `main`: not-started check, quota resolution,
ledger check (abort on `None`), overshoot abort, zero-quota no-op,
satisfied no-op, on-disk count checks, then the append loop writing
lines `existing+1 … need` followed by `git add` on the artifact file. -/
def main (i : TickInput) : TickOutput :=
  let mode := normMode i.mode
  if i.today - i.startDate < 0 then ⟨0, []⟩
  else
    let delta := (i.today - i.startDate).toNat
    match resolveNeed mode i.pattern i.dailyGoal delta with
    | NeedRes.err => ⟨1, []⟩
    | NeedRes.stop => ⟨0, []⟩
    | NeedRes.need need =>
      match i.commitsToday with
      | none => ⟨1, []⟩
      | some commits =>
        if need < (commits : Int) then ⟨1, []⟩
        else if need ≤ 0 then ⟨0, []⟩
        else if (commits : Int) = need then ⟨0, []⟩
        else
          let path := artifactPath (effDataDir i.dataDir) i.todayIso
          if need < (i.existing : Int) then ⟨1, []⟩
          else if (i.existing : Int) = need then ⟨0, []⟩
          else
            let toWrite := (need - (i.existing : Int)).toNat
            let written := (List.range' (i.existing + 1) toWrite).map
              (fun idx => Eff.appendLine path (lineFor (i.stamps idx) idx need (i.tokens idx)))
            if i.gitAddOk then ⟨0, written ++ [Eff.gitAdd path]⟩
            else ⟨1, written⟩

/-- `_count_commits_today` over the outcome of the `git log` call:
`none` models `FileNotFoundError` (git binary missing); otherwise the
exit code and the stdout lines.  A non-zero exit code yields `none`
(unavailable); success counts the non-blank stdout lines. -/
def _count_commits_today (runResult : Option (Int × List String)) : Option Nat :=
  match runResult with
  | none => none
  | some (rc, outputLines) =>
    if rc ≠ 0 then none
    else some ((outputLines.filter (fun line => line.trim ≠ "")).length)

/-- Number of lines a run appends to the artifact file. -/
def appendCount (o : TickOutput) : Nat :=
  (o.effects.filter (fun e =>
    match e with
    | Eff.appendLine _ _ => true
    | _ => false)).length

/-- The quota the run resolves for today, when it reaches the point of
having one (`none` for not-started, config errors and stops). -/
def needOf (i : TickInput) : Option Int :=
  if i.today - i.startDate < 0 then none
  else
    match resolveNeed (normMode i.mode) i.pattern i.dailyGoal
        (i.today - i.startDate).toNat with
    | NeedRes.need n => some n
    | _ => none

/-- Sample tick: quota 3 already reached by one staged record, zero
commits; the run writes the remaining two records. -/
def tickWrite3 : TickInput :=
  ⟨0, "pattern", List.replicate 7 [some 3], 0, 0, "2024-01-01", "heatmap",
    some 0, 1, true, fun _ => "s", fun _ => "t"⟩

/-- Sample tick: today's cell is 0 but one commit already exists. -/
def tickZeroQuotaOneCommit : TickInput :=
  ⟨0, "pattern", List.replicate 7 [some 0], 0, 0, "2024-01-01", "heatmap",
    some 1, 0, true, fun _ => "s", fun _ => "t"⟩

/-- Sample tick: flat mode with daily quota 0. -/
def tickDailyZero : TickInput :=
  ⟨0, "daily", [], 0, 0, "2024-01-01", "heatmap",
    some 0, 0, true, fun _ => "s", fun _ => "t"⟩

/-- Sample tick: flat mode, 1-week pattern, date one full week past the
start (first date past the claimed 7*N window). -/
def tickDailyPastWindow : TickInput :=
  ⟨0, "daily", List.replicate 7 [some 1], 2, 7, "2024-01-08", "heatmap",
    some 0, 0, true, fun _ => "s", fun _ => "t"⟩

/-- Sample tick: flat mode before the start date. -/
def tickDailyEarly : TickInput :=
  ⟨5, "daily", [], 3, 4, "2024-01-01", "heatmap",
    some 0, 0, true, fun _ => "s", fun _ => "t"⟩

/-- Sample tick: 7-by-2 grid, day 8 selects row 1, column 1. -/
def tickGridCell : TickInput :=
  ⟨0, "pattern", List.replicate 7 [some 3, some 5], 0, 8, "2024-01-09", "heatmap",
    some 0, 0, true, fun _ => "s", fun _ => "t"⟩

/-- Sample tick: 7-by-2 grid, day 14 is past the last column. -/
def tickGridDone : TickInput :=
  ⟨0, "pattern", List.replicate 7 [some 3, some 5], 0, 14, "2024-01-15", "heatmap",
    some 0, 0, true, fun _ => "s", fun _ => "t"⟩

/-- Sample tick: grid mode before the start date. -/
def tickGridEarly : TickInput :=
  ⟨5, "pattern", List.replicate 7 [some 3], 0, 4, "2024-01-01", "heatmap",
    some 0, 0, true, fun _ => "s", fun _ => "t"⟩

/-- Sample tick: the ledger query failed (`None` commit count). -/
def tickNoLedger : TickInput :=
  ⟨0, "pattern", List.replicate 7 [some 2], 0, 0, "2024-01-01", "heatmap",
    none, 0, true, fun _ => "s", fun _ => "t"⟩

/-- Sample tick: empty pattern list in grid mode. -/
def tickShortPattern : TickInput :=
  ⟨0, "pattern", [], 0, 0, "2024-01-01", "heatmap",
    some 0, 0, true, fun _ => "s", fun _ => "t"⟩

/-- Sample tick: ragged rows among the first seven. -/
def tickRaggedPattern : TickInput :=
  ⟨0, "pattern", [[some 1], [some 1, some 2], [some 1], [some 1], [some 1], [some 1], [some 1]],
    0, 0, "2024-01-01", "heatmap", some 0, 0, true, fun _ => "s", fun _ => "t"⟩

/-- Sample tick: eight-row pattern (one row more than the 7 the spec
allows). -/
def tickEightRows : TickInput :=
  ⟨0, "pattern", List.replicate 8 [some 1], 0, 0, "2024-01-01", "heatmap",
    some 0, 0, true, fun _ => "s", fun _ => "t"⟩

/-- Sample tick: today's cell is non-numeric. -/
def tickNonNumericCell : TickInput :=
  ⟨0, "pattern", List.replicate 7 [none], 0, 0, "2024-01-01", "heatmap",
    some 0, 0, true, fun _ => "s", fun _ => "t"⟩

/-- Sample tick: a needed write whose `git add` fails. -/
def tickAddFails : TickInput :=
  ⟨0, "pattern", List.replicate 7 [some 2], 0, 0, "2024-01-01", "heatmap",
    some 0, 0, false, fun _ => "s", fun _ => "t"⟩

/-- Sample tick: a clean two-record write with successful staging. -/
def tickCleanWrite : TickInput :=
  ⟨0, "pattern", List.replicate 7 [some 2], 0, 0, "2024-01-01", "heatmap",
    some 0, 0, true, fun _ => "s", fun _ => "t"⟩

end HeatmapPainter

namespace Main

end Main

open HeatmapPainter

theorem appendCount_written (ec : Nat) (path : String) (st tk : Nat → String)
    (n : Int) (s len : Nat) (rest : List Eff)
    (h : appendCount ⟨ec, rest⟩ = 0) :
    appendCount ⟨ec, (List.range' s len).map
      (fun idx => Eff.appendLine path (lineFor (st idx) idx n (tk idx))) ++ rest⟩ = len := by
  simp only [appendCount] at h ⊢
  rw [List.filter_append, List.length_append]
  rw [List.filter_eq_self.mpr]
  · rw [List.length_map, List.length_range']
    omega
  · intro a ha
    rcases List.mem_map.1 ha with ⟨idx, _, rfl⟩
    rfl

theorem resolveNeed_grid (p : List (List (Option Int))) (g : Int) (N r k : Nat)
    (hlen : p.length = 7) (hrows : ∀ row ∈ p, row.length = N) (hr : r < 7) (hk : k < N) :
    resolveNeed "pattern" p g (7 * k + r) =
      (match (p.getD r []).getD k none with
       | some v => NeedRes.need v
       | none => NeedRes.need 0) := by
  have hfirst : (p.headD []).length = N := by
    have hmem : p.headD [] ∈ p := by
      cases hp : p with
      | nil => rw [hp] at hlen; simp at hlen
      | cons a t => simp
    exact hrows _ hmem
  have hany : ((p.take 7).any (fun row => row.length ≠ (p.headD []).length)) = false := by
    rw [List.any_eq_false]
    intro row hrow
    rw [hrows _ (List.mem_of_mem_take hrow), hfirst]
    simp
  unfold resolveNeed
  rw [if_neg (by decide : ¬ ("pattern" : String) = "daily")]
  rw [if_neg (by omega : ¬ p.length < 7)]
  simp only [hany, Bool.false_eq_true, if_false]
  rw [hfirst]
  rw [if_neg (by omega : ¬ N = 0)]
  rw [show (7 * k + r) / 7 = k from by omega, show (7 * k + r) % 7 = r from by omega]
  rw [if_neg (by omega : ¬ N ≤ k)]

theorem resolveNeed_grid_stop (p : List (List (Option Int))) (g : Int) (N d : Nat)
    (hlen : p.length = 7) (hrows : ∀ row ∈ p, row.length = N) (hd : N ≤ d / 7) :
    resolveNeed "pattern" p g d = NeedRes.stop := by
  have hfirst : (p.headD []).length = N := by
    have hmem : p.headD [] ∈ p := by
      cases hp : p with
      | nil => rw [hp] at hlen; simp at hlen
      | cons a t => simp
    exact hrows _ hmem
  have hany : ((p.take 7).any (fun row => row.length ≠ (p.headD []).length)) = false := by
    rw [List.any_eq_false]
    intro row hrow
    rw [hrows _ (List.mem_of_mem_take hrow), hfirst]
    simp
  unfold resolveNeed
  rw [if_neg (by decide : ¬ ("pattern" : String) = "daily")]
  rw [if_neg (by omega : ¬ p.length < 7)]
  simp only [hany, Bool.false_eq_true, if_false]
  rw [hfirst]
  by_cases hN : N = 0
  · rw [if_pos hN]
  · rw [if_neg hN, if_pos hd]

theorem resolveNeed_take7 (p : List (List (Option Int))) (g : Int) (d : Nat)
    (hlen : 7 ≤ p.length) :
    resolveNeed "pattern" p g d = resolveNeed "pattern" (p.take 7) g d := by
  have hhead : (p.take 7).headD [] = p.headD [] := by
    cases p with
    | nil => simp at hlen
    | cons a t => simp [List.take]
  have htt : (p.take 7).take 7 = p.take 7 := by simp [List.take_take]
  have hget : ∀ r : Nat, r < 7 → (p.take 7).getD r [] = p.getD r [] := by
    intro r hr
    rw [List.getD_eq_getElem _ _ (by simp [List.length_take]; omega),
      List.getD_eq_getElem _ _ (by omega : r < p.length)]
    simp [List.getElem_take]
  unfold resolveNeed
  rw [if_neg (by decide : ¬ ("pattern" : String) = "daily")]
  rw [if_neg (by decide : ¬ ("pattern" : String) = "daily")]
  rw [if_neg (by omega : ¬ p.length < 7),
    if_neg (by simp [List.length_take]; omega : ¬ (p.take 7).length < 7)]
  rw [hhead, htt]
  by_cases hany : ((p.take 7).any (fun row => row.length ≠ (p.headD []).length)) = true
  · rw [if_pos hany, if_pos hany]
  · rw [if_neg hany, if_neg hany]
    simp only [hget (d % 7) (by omega)]

/-- C1: on every invocation of the painter, either no line is appended to
the artifact file, or the run is in the write branch and it appends
exactly `required_count - existing` lines, so the post-write line count
`existing + appended` equals the resolved `required_count`; in
particular the engine's own writes never push the record count past the
day's quota. -/
theorem C1_write_branch_appends_exact_deficit (i : TickInput) :
    appendCount (HeatmapPainter.main i) = 0 ∨
    ∃ n : Int, needOf i = some n ∧ (i.existing : Int) < n ∧
      (i.existing : Int) + (appendCount (HeatmapPainter.main i) : Int) = n := by
  by_cases h0d : i.today - i.startDate < 0
  · simp only [HeatmapPainter.main, if_pos h0d]
    left; rfl
  cases hr : resolveNeed (normMode i.mode) i.pattern i.dailyGoal (i.today - i.startDate).toNat with
  | err =>
    simp only [HeatmapPainter.main, if_neg h0d, hr]
    left; rfl
  | stop =>
    simp only [HeatmapPainter.main, if_neg h0d, hr]
    left; rfl
  | need n =>
    cases hc : i.commitsToday with
    | none =>
      simp only [HeatmapPainter.main, if_neg h0d, hr, hc]
      left; rfl
    | some c =>
      simp only [HeatmapPainter.main, if_neg h0d, hr, hc]
      split_ifs with h1 h2 h3 h4 h5 h6
      · left; rfl
      · left; rfl
      · left; rfl
      · left; rfl
      · left; rfl
      · right
        refine ⟨n, by simp only [needOf, if_neg h0d, hr], by omega, ?_⟩
        rw [appendCount_written _ _ _ _ _ _ _
          [Eff.gitAdd (artifactPath (effDataDir i.dataDir) i.todayIso)] rfl]
        omega
      · right
        refine ⟨n, by simp only [needOf, if_neg h0d, hr], by omega, ?_⟩
        have := appendCount_written 1 (artifactPath (effDataDir i.dataDir) i.todayIso)
          i.stamps i.tokens n (i.existing + 1) ((n - (i.existing : Int)).toNat) [] rfl
        simp only [List.append_nil] at this
        rw [this]
        omega

/-- C2: if one run ends in a successful write (exit 0 with at least one
appended line), then an immediate re-run on the same date with the same
pattern and git state — and the on-disk record count increased by
exactly what the first run wrote — finds that count equal to the
required count and takes the no-op branch, exit 0, writing nothing. -/
theorem C2_second_run_is_noop (i : TickInput) (iso2 dd2 : String) (b : Bool)
    (f g : Nat → String)
    (h0 : (HeatmapPainter.main i).exitCode = 0)
    (h1 : 0 < appendCount (HeatmapPainter.main i)) :
    needOf i = some ((i.existing + appendCount (HeatmapPainter.main i) : Nat) : Int) ∧
    HeatmapPainter.main (TickInput.mk i.startDate i.mode i.pattern i.dailyGoal i.today
      iso2 dd2 i.commitsToday (i.existing + appendCount (HeatmapPainter.main i)) b f g)
      = ⟨0, []⟩ := by
  by_cases h0d : i.today - i.startDate < 0
  · simp only [HeatmapPainter.main, if_pos h0d] at h1
    simp [appendCount] at h1
  cases hr : resolveNeed (normMode i.mode) i.pattern i.dailyGoal (i.today - i.startDate).toNat with
  | err =>
    simp only [HeatmapPainter.main, if_neg h0d, hr] at h1
    simp [appendCount] at h1
  | stop =>
    simp only [HeatmapPainter.main, if_neg h0d, hr] at h1
    simp [appendCount] at h1
  | need n =>
    cases hc : i.commitsToday with
    | none =>
      simp only [HeatmapPainter.main, if_neg h0d, hr, hc] at h1
      simp [appendCount] at h1
    | some c =>
      simp only [HeatmapPainter.main, if_neg h0d, hr, hc] at h0 h1
      split_ifs at h0 h1 with hh1 hh2 hh3 hh4 hh5 hh6
      all_goals try (exfalso; simp [appendCount] at h1; done)
      -- remaining: the write branch with successful git add
      have hA : appendCount (HeatmapPainter.main i) = ((n : Int) - i.existing).toNat := by
        simp only [HeatmapPainter.main, if_neg h0d, hr, hc]
        rw [if_neg hh1, if_neg hh2, if_neg hh3, if_neg hh4, if_neg hh5, if_pos hh6]
        exact appendCount_written _ _ _ _ _ _ _ _ rfl
      rw [hA]
      constructor
      · rw [show ((i.existing + ((n : Int) - (i.existing : Int)).toNat : Nat) : Int) = n
          from by omega]
        simp only [needOf, if_neg h0d, hr]
      · simp only [HeatmapPainter.main, if_neg h0d, hr, hc]
        rw [if_neg hh1, if_neg hh2, if_neg hh3]
        rw [if_neg (show ¬ n < ((i.existing + ((n : Int) - (i.existing : Int)).toNat : Nat) : Int)
          from by omega)]
        rw [if_pos (show ((i.existing + ((n : Int) - (i.existing : Int)).toNat : Nat) : Int) = n
          from by omega)]

/-- C2 witness: on `tickWrite3` (quota 3, one record on disk, zero
commits) the first run writes two lines and exits 0, and the re-run with
the on-disk count at 3 is a no-op with exit 0. -/
theorem C2_second_run_is_noop_witness :
    needOf tickWrite3 = some 3 ∧
    HeatmapPainter.main ⟨0, "pattern", List.replicate 7 [some 3], 0, 0, "x", "y",
      some 0, 3, false, fun _ => "a", fun _ => "b"⟩ = ⟨0, []⟩ :=
  C2_second_run_is_noop tickWrite3 "x" "y" false (fun _ => "a") (fun _ => "b")
    (by decide) (by decide)

/-- C3 counterexample: on a day whose cell is 0 with one commit already
made, the painter exits 1 (overshoot abort) instead of the claimed NoOp
exit 0; and flat mode with daily quota 0 also exits 1 instead of the
claimed NoOp. -/
theorem C3_counterexample :
    needOf tickZeroQuotaOneCommit = some 0 ∧
    tickZeroQuotaOneCommit.commitsToday = some 1 ∧
    HeatmapPainter.main tickZeroQuotaOneCommit = ⟨1, []⟩ ∧
    HeatmapPainter.main tickDailyZero = ⟨1, []⟩ := by
  decide

/-- C3 amended: the overshoot check precedes the zero-quota check.  For
a day with `required_count = 0` and an available commit count `c` the
painter aborts with exit 1 whenever `c > 0`, and returns NoOp (exit 0)
only when `c = 0`; flat mode with daily quota ≤ 0 exits 1 as a
configuration error rather than a NoOp. -/
theorem C3_overshoot_checked_before_zero_quota :
    (∀ (i : TickInput) (c : Nat), needOf i = some 0 → i.commitsToday = some c →
      HeatmapPainter.main i = if 0 < c then ⟨1, []⟩ else ⟨0, []⟩) ∧
    (∀ i : TickInput, normMode i.mode = "daily" → i.dailyGoal ≤ 0 →
      i.startDate ≤ i.today → HeatmapPainter.main i = ⟨1, []⟩) := by
  constructor
  · intro i c hn hc
    by_cases h0d : i.today - i.startDate < 0
    · simp only [needOf] at hn
      rw [if_pos h0d] at hn
      exact Option.noConfusion hn
    cases hr : resolveNeed (normMode i.mode) i.pattern i.dailyGoal (i.today - i.startDate).toNat with
    | err =>
      simp only [needOf] at hn
      rw [if_neg h0d] at hn
      simp only [hr] at hn
      exact Option.noConfusion hn
    | stop =>
      simp only [needOf] at hn
      rw [if_neg h0d] at hn
      simp only [hr] at hn
      exact Option.noConfusion hn
    | need n =>
      have hn0 : n = 0 := by
        simp only [needOf] at hn
        rw [if_neg h0d] at hn
        simp only [hr, Option.some.injEq] at hn
        exact hn
      subst hn0
      simp only [HeatmapPainter.main, if_neg h0d, hr, hc]
      rcases Nat.eq_zero_or_pos c with rfl | hc1
      · rw [if_neg (by omega), if_pos (by omega), if_neg (by omega)]
      · rw [if_pos (by exact_mod_cast hc1), if_pos hc1]
  · intro i hm hg hs
    have h0d : ¬ i.today - i.startDate < 0 := by omega
    have hr : resolveNeed "daily" i.pattern i.dailyGoal (i.today - i.startDate).toNat
        = NeedRes.err := by
      unfold resolveNeed
      rw [if_pos rfl, if_pos (by omega : max 0 i.dailyGoal ≤ 0)]
    simp only [HeatmapPainter.main, if_neg h0d, hm, hr]

/-- C3 witness: the amended rule applied to `tickZeroQuotaOneCommit`
(abort) and `tickDailyZero` (config error). -/
theorem C3_overshoot_checked_before_zero_quota_witness :
    HeatmapPainter.main tickZeroQuotaOneCommit
      = (if 0 < 1 then (⟨1, []⟩ : TickOutput) else ⟨0, []⟩) ∧
    HeatmapPainter.main tickDailyZero = ⟨1, []⟩ :=
  ⟨C3_overshoot_checked_before_zero_quota.1 tickZeroQuotaOneCommit 1 (by decide) (by decide),
   C3_overshoot_checked_before_zero_quota.2 tickDailyZero (by decide) (by decide) (by decide)⟩

/-- C4 counterexample: in flat mode with a 1-week pattern and daily
quota 2, on `start_date + 7` (the first date past the claimed window)
the painter does not stop as Completed: it exits 0 after appending two
lines to the artifact file. -/
theorem C4_counterexample :
    (HeatmapPainter.main tickDailyPastWindow).exitCode = 0 ∧
    appendCount (HeatmapPainter.main tickDailyPastWindow) = 2 := by
  decide

/-- C4 amended: in flat mode the painter ignores the pattern matrix
entirely: with a positive daily quota, `required_count = daily_quota`
for every date on or after `start_date`, with no Completed cutoff at
`start_date + 7*N`; only dates before `start_date` terminate with exit 0
and no action. -/
theorem C4_daily_mode_has_no_completion_window :
    (∀ i : TickInput, normMode i.mode = "daily" → 0 < i.dailyGoal →
      i.startDate ≤ i.today → needOf i = some i.dailyGoal) ∧
    (∀ i : TickInput, i.today < i.startDate → HeatmapPainter.main i = ⟨0, []⟩) := by
  constructor
  · intro i hm hg hs
    have h0d : ¬ i.today - i.startDate < 0 := by omega
    have hr : resolveNeed "daily" i.pattern i.dailyGoal (i.today - i.startDate).toNat
        = NeedRes.need i.dailyGoal := by
      unfold resolveNeed
      rw [if_pos rfl, if_neg (by omega : ¬ max 0 i.dailyGoal ≤ 0),
        show max 0 i.dailyGoal = i.dailyGoal from by omega]
    simp only [needOf, if_neg h0d, hm, hr]
  · intro i h
    simp only [HeatmapPainter.main, if_pos (by omega : i.today - i.startDate < 0)]

/-- C4 witness: the amended rule applied to `tickDailyPastWindow` (a
date past the 7*N window still gets the full quota) and to
`tickDailyEarly` (before the start date). -/
theorem C4_daily_mode_has_no_completion_window_witness :
    needOf tickDailyPastWindow = some 2 ∧
    HeatmapPainter.main tickDailyEarly = ⟨0, []⟩ :=
  ⟨C4_daily_mode_has_no_completion_window.1 tickDailyPastWindow (by decide) (by decide)
    (by decide),
   C4_daily_mode_has_no_completion_window.2 tickDailyEarly (by decide)⟩

/-- C5: grid-mode cell lookup.  For a well-formed 7-row by N-column grid
with integer cells, the date `start_date + 7*k + r` resolves
`required_count = pattern[r][k]`; any date with `column = delta div 7 ≥
N` terminates with exit 0 and no effects (Completed), and any date
before `start_date` terminates with exit 0 and no effects (NotStarted). -/
theorem C5_grid_cell_lookup :
    (∀ (i : TickInput) (N r k : Nat) (v : Int),
      normMode i.mode = "pattern" → i.pattern.length = 7 →
      (∀ row ∈ i.pattern, row.length = N) → r < 7 → k < N →
      i.today = i.startDate + (7 * k + r : Nat) →
      (i.pattern.getD r []).getD k none = some v →
      needOf i = some v) ∧
    (∀ (i : TickInput) (N : Nat),
      normMode i.mode = "pattern" → i.pattern.length = 7 →
      (∀ row ∈ i.pattern, row.length = N) →
      i.startDate ≤ i.today → N ≤ (i.today - i.startDate).toNat / 7 →
      HeatmapPainter.main i = ⟨0, []⟩) ∧
    (∀ i : TickInput, i.today < i.startDate → HeatmapPainter.main i = ⟨0, []⟩) := by
  refine ⟨?_, ?_, ?_⟩
  · intro i N r k v hm hlen hrows hr hk hday hcell
    have h0d : ¬ i.today - i.startDate < 0 := by omega
    have hdn : (i.today - i.startDate).toNat = 7 * k + r := by omega
    simp only [needOf]
    rw [if_neg h0d, hm, hdn, resolveNeed_grid i.pattern i.dailyGoal N r k hlen hrows hr hk,
      hcell]
  · intro i N hm hlen hrows hs hd
    have h0d : ¬ i.today - i.startDate < 0 := by omega
    have hstop : resolveNeed "pattern" i.pattern i.dailyGoal (i.today - i.startDate).toNat
        = NeedRes.stop :=
      resolveNeed_grid_stop i.pattern i.dailyGoal N _ hlen hrows hd
    simp only [HeatmapPainter.main, if_neg h0d, hm, hstop]
  · intro i h
    simp only [HeatmapPainter.main, if_pos (by omega : i.today - i.startDate < 0)]

/-- C5 witness: on a 7-by-2 grid, day 8 (row 1, column 1) resolves the
cell value 5; day 14 is Completed; a date before the start is
NotStarted. -/
theorem C5_grid_cell_lookup_witness :
    needOf tickGridCell = some 5 ∧
    HeatmapPainter.main tickGridDone = ⟨0, []⟩ ∧
    HeatmapPainter.main tickGridEarly = ⟨0, []⟩ :=
  ⟨C5_grid_cell_lookup.1 tickGridCell 2 1 1 5 (by decide) (by decide) (by decide)
      (by decide) (by decide) (by decide) (by decide),
   C5_grid_cell_lookup.2.1 tickGridDone 2 (by decide) (by decide) (by decide)
      (by decide) (by decide),
   C5_grid_cell_lookup.2.2 tickGridEarly (by decide)⟩

/-- C6: an unavailable ledger is never treated as zero.  A missing git
binary or a non-zero `git log` exit code makes `_count_commits_today`
return `None` (never a count of 0), and a run whose commit count is
`None` appends nothing; if it had resolved a concrete quota for today it
exits 1 before any file write. -/
theorem C6_unavailable_ledger_aborts :
    _count_commits_today none = none ∧
    (∀ (rc : Int) (ls : List String), rc ≠ 0 → _count_commits_today (some (rc, ls)) = none) ∧
    (∀ i : TickInput, i.commitsToday = none →
      appendCount (HeatmapPainter.main i) = 0 ∧
      ∀ n : Int, needOf i = some n → HeatmapPainter.main i = ⟨1, []⟩) := by
  refine ⟨rfl, ?_, ?_⟩
  · intro rc ls h
    simp only [_count_commits_today]
    rw [if_pos h]
  · intro i hc
    by_cases h0d : i.today - i.startDate < 0
    · refine ⟨by simp only [HeatmapPainter.main, if_pos h0d]; rfl, ?_⟩
      intro n hn
      simp only [needOf] at hn
      rw [if_pos h0d] at hn
      exact Option.noConfusion hn
    cases hr : resolveNeed (normMode i.mode) i.pattern i.dailyGoal (i.today - i.startDate).toNat with
    | err =>
      refine ⟨by simp only [HeatmapPainter.main, if_neg h0d, hr]; rfl, ?_⟩
      intro n hn
      simp only [needOf] at hn
      rw [if_neg h0d] at hn
      simp only [hr] at hn
      exact Option.noConfusion hn
    | stop =>
      refine ⟨by simp only [HeatmapPainter.main, if_neg h0d, hr]; rfl, ?_⟩
      intro n hn
      simp only [needOf] at hn
      rw [if_neg h0d] at hn
      simp only [hr] at hn
      exact Option.noConfusion hn
    | need n =>
      refine ⟨by simp only [HeatmapPainter.main, if_neg h0d, hr, hc]; rfl, ?_⟩
      intro m hm
      simp only [HeatmapPainter.main, if_neg h0d, hr, hc]

/-- C6 witness: a failed `git log` (exit 1) yields `None`, and the run
`tickNoLedger` (quota 2 resolved, ledger unavailable) appends nothing
and exits 1. -/
theorem C6_unavailable_ledger_aborts_witness :
    _count_commits_today (some (1, ["abc"])) = none ∧
    appendCount (HeatmapPainter.main tickNoLedger) = 0 ∧
    HeatmapPainter.main tickNoLedger = ⟨1, []⟩ :=
  ⟨C6_unavailable_ledger_aborts.2.1 1 ["abc"] (by decide),
   (C6_unavailable_ledger_aborts.2.2 tickNoLedger rfl).1,
   (C6_unavailable_ledger_aborts.2.2 tickNoLedger rfl).2 2 (by decide)⟩

/-- C7 counterexample: an eight-row pattern is not rejected — the
painter processes it (exit 0) and even writes a line; and a pattern
whose cell for today is non-numeric yields a NoOp with exit 0 instead of
a fatal configuration error. -/
theorem C7_counterexample :
    (HeatmapPainter.main tickEightRows).exitCode = 0 ∧
    0 < appendCount (HeatmapPainter.main tickEightRows) ∧
    HeatmapPainter.main tickNonNumericCell = ⟨0, []⟩ := by
  decide

/-- C7 amended: the painter rejects only grid patterns with fewer than 7
rows, or ragged columns among the first 7 rows (exit 1, no effects).  A
pattern with more than 7 rows is processed exactly as its first 7 rows,
and a non-numeric cell for today is coerced to a required count of 0
rather than rejected. -/
theorem C7_pattern_checks_are_weaker :
    (∀ i : TickInput, normMode i.mode = "pattern" → i.startDate ≤ i.today →
      i.pattern.length < 7 → HeatmapPainter.main i = ⟨1, []⟩) ∧
    (∀ i : TickInput, normMode i.mode = "pattern" → i.startDate ≤ i.today →
      7 ≤ i.pattern.length →
      ((i.pattern.take 7).any (fun row => row.length ≠ (i.pattern.headD []).length)) = true →
      HeatmapPainter.main i = ⟨1, []⟩) ∧
    (∀ (p : List (List (Option Int))) (g : Int) (d : Nat), 7 ≤ p.length →
      resolveNeed "pattern" p g d = resolveNeed "pattern" (p.take 7) g d) ∧
    (∀ (i : TickInput) (N r k : Nat),
      normMode i.mode = "pattern" → i.pattern.length = 7 →
      (∀ row ∈ i.pattern, row.length = N) → r < 7 → k < N →
      i.today = i.startDate + (7 * k + r : Nat) →
      (i.pattern.getD r []).getD k none = none →
      needOf i = some 0) := by
  refine ⟨?_, ?_, fun p g d h => resolveNeed_take7 p g d h, ?_⟩
  · intro i hm hs hshort
    have h0d : ¬ i.today - i.startDate < 0 := by omega
    have hr : resolveNeed "pattern" i.pattern i.dailyGoal (i.today - i.startDate).toNat
        = NeedRes.err := by
      unfold resolveNeed
      rw [if_neg (by decide : ¬ ("pattern" : String) = "daily"), if_pos hshort]
    simp only [HeatmapPainter.main, if_neg h0d, hm, hr]
  · intro i hm hs hlen hragged
    have h0d : ¬ i.today - i.startDate < 0 := by omega
    have hr : resolveNeed "pattern" i.pattern i.dailyGoal (i.today - i.startDate).toNat
        = NeedRes.err := by
      unfold resolveNeed
      rw [if_neg (by decide : ¬ ("pattern" : String) = "daily"),
        if_neg (by omega : ¬ i.pattern.length < 7), if_pos hragged]
    simp only [HeatmapPainter.main, if_neg h0d, hm, hr]
  · intro i N r k hm hlen hrows hr7 hk hday hcell
    have h0d : ¬ i.today - i.startDate < 0 := by omega
    have hdn : (i.today - i.startDate).toNat = 7 * k + r := by omega
    simp only [needOf]
    rw [if_neg h0d, hm, hdn,
      resolveNeed_grid i.pattern i.dailyGoal N r k hlen hrows hr7 hk, hcell]

/-- C7 witness: the amended rules applied to an empty pattern, a ragged
pattern, the eight-row pattern (whose resolution equals that of its
first 7 rows) and the non-numeric cell. -/
theorem C7_pattern_checks_are_weaker_witness :
    HeatmapPainter.main tickShortPattern = ⟨1, []⟩ ∧
    HeatmapPainter.main tickRaggedPattern = ⟨1, []⟩ ∧
    resolveNeed "pattern" (List.replicate 8 [some 1]) 0 0
      = resolveNeed "pattern" ((List.replicate 8 [some 1]).take 7) 0 0 ∧
    needOf tickNonNumericCell = some 0 :=
  ⟨C7_pattern_checks_are_weaker.1 tickShortPattern (by decide) (by decide) (by decide),
   C7_pattern_checks_are_weaker.2.1 tickRaggedPattern (by decide) (by decide)
     (by decide) (by decide),
   C7_pattern_checks_are_weaker.2.2.1 (List.replicate 8 [some 1]) 0 0 (by decide),
   C7_pattern_checks_are_weaker.2.2.2 tickNonNumericCell 1 0 0 (by decide) (by decide)
     (by decide) (by decide) (by decide) (by decide) (by decide)⟩

/-- C8 counterexample: when `git add` fails after a needed write the
painter exits 1 having already appended two lines — a failure exit with
the working tree mutated, contradicting the claim that every failure is
detected before any write. -/
theorem C8_counterexample :
    (HeatmapPainter.main tickAddFails).exitCode = 1 ∧
    appendCount (HeatmapPainter.main tickAddFails) = 2 := by
  decide

/-- C8 amended: every failure exit of the painter happens with no line
appended, except a staging (`git add`) failure, which exits 1 after the
deficit lines have already been appended; even then the post-write
record count equals the required count, so the day's file is not left
inconsistent. -/
theorem C8_failures_precede_writes_except_staging (i : TickInput)
    (h : (HeatmapPainter.main i).exitCode ≠ 0) :
    appendCount (HeatmapPainter.main i) = 0 ∨
    (i.gitAddOk = false ∧
      needOf i = some ((i.existing + appendCount (HeatmapPainter.main i) : Nat) : Int)) := by
  by_cases h0d : i.today - i.startDate < 0
  · left
    simp only [HeatmapPainter.main, if_pos h0d]
    rfl
  cases hr : resolveNeed (normMode i.mode) i.pattern i.dailyGoal (i.today - i.startDate).toNat with
  | err =>
    left
    simp only [HeatmapPainter.main, if_neg h0d, hr]
    rfl
  | stop =>
    left
    simp only [HeatmapPainter.main, if_neg h0d, hr]
    rfl
  | need n =>
    cases hc : i.commitsToday with
    | none =>
      left
      simp only [HeatmapPainter.main, if_neg h0d, hr, hc]
      rfl
    | some c =>
      by_cases hh1 : n < (c : Int)
      · left
        simp only [HeatmapPainter.main, if_neg h0d, hr, hc]
        rw [if_pos hh1]
        rfl
      by_cases hh2 : n ≤ 0
      · left
        simp only [HeatmapPainter.main, if_neg h0d, hr, hc]
        rw [if_neg hh1, if_pos hh2]
        rfl
      by_cases hh3 : (c : Int) = n
      · left
        simp only [HeatmapPainter.main, if_neg h0d, hr, hc]
        rw [if_neg hh1, if_neg hh2, if_pos hh3]
        rfl
      by_cases hh4 : n < (i.existing : Int)
      · left
        simp only [HeatmapPainter.main, if_neg h0d, hr, hc]
        rw [if_neg hh1, if_neg hh2, if_neg hh3, if_pos hh4]
        rfl
      by_cases hh5 : (i.existing : Int) = n
      · left
        simp only [HeatmapPainter.main, if_neg h0d, hr, hc]
        rw [if_neg hh1, if_neg hh2, if_neg hh3, if_neg hh4, if_pos hh5]
        rfl
      by_cases hh6 : i.gitAddOk = true
      · exfalso
        apply h
        simp only [HeatmapPainter.main, if_neg h0d, hr, hc]
        rw [if_neg hh1, if_neg hh2, if_neg hh3, if_neg hh4, if_neg hh5, if_pos hh6]
      · right
        have hw := appendCount_written 1 (artifactPath (effDataDir i.dataDir) i.todayIso)
          i.stamps i.tokens n (i.existing + 1) ((n - (i.existing : Int)).toNat) [] rfl
        simp only [List.append_nil] at hw
        have hA : appendCount (HeatmapPainter.main i) = ((n : Int) - i.existing).toNat := by
          simp only [HeatmapPainter.main, if_neg h0d, hr, hc]
          rw [if_neg hh1, if_neg hh2, if_neg hh3, if_neg hh4, if_neg hh5, if_neg hh6]
          exact hw
        refine ⟨by simpa using hh6, ?_⟩
        rw [hA, show ((i.existing + ((n : Int) - (i.existing : Int)).toNat : Nat) : Int) = n
          from by omega]
        simp only [needOf, if_neg h0d, hr]

/-- C8 witness: the amended rule applied to `tickAddFails`, whose run
exits 1. -/
theorem C8_failures_precede_writes_except_staging_witness :
    appendCount (HeatmapPainter.main tickAddFails) = 0 ∨
    (tickAddFails.gitAddOk = false ∧
      needOf tickAddFails
        = some ((tickAddFails.existing
            + appendCount (HeatmapPainter.main tickAddFails) : Nat) : Int)) :=
  C8_failures_precede_writes_except_staging tickAddFails (by decide)

/-- C9: the Record Writer contract.  No run ever emits a commit, and a
run that appends lines appends them to `<data_dir>/<date>.txt`, writing
exactly the deficit — lines numbered `existing+1` through
`required_count`, each carrying its timestamp, sequence, total and
random token — followed by staging exactly that file when `git add`
succeeds. -/
theorem C9_record_writer_contract :
    (∀ (i : TickInput) (msg : String), Eff.gitCommit msg ∉ (HeatmapPainter.main i).effects) ∧
    (∀ i : TickInput, 0 < appendCount (HeatmapPainter.main i) →
      needOf i = some ((i.existing + appendCount (HeatmapPainter.main i) : Nat) : Int) ∧
      (HeatmapPainter.main i).effects =
        (List.range' (i.existing + 1) (appendCount (HeatmapPainter.main i))).map
          (fun idx => Eff.appendLine (artifactPath (effDataDir i.dataDir) i.todayIso)
            (lineFor (i.stamps idx) idx
              ((i.existing + appendCount (HeatmapPainter.main i) : Nat) : Int)
              (i.tokens idx))) ++
        (if i.gitAddOk then [Eff.gitAdd (artifactPath (effDataDir i.dataDir) i.todayIso)]
         else [])) := by
  constructor
  · intro i msg
    by_cases h0d : i.today - i.startDate < 0
    · simp only [HeatmapPainter.main, if_pos h0d]
      simp
    cases hr : resolveNeed (normMode i.mode) i.pattern i.dailyGoal (i.today - i.startDate).toNat with
    | err => simp only [HeatmapPainter.main, if_neg h0d, hr]; simp
    | stop => simp only [HeatmapPainter.main, if_neg h0d, hr]; simp
    | need n =>
      cases hc : i.commitsToday with
      | none => simp only [HeatmapPainter.main, if_neg h0d, hr, hc]; simp
      | some c =>
        simp only [HeatmapPainter.main, if_neg h0d, hr, hc]
        split_ifs <;> simp [List.mem_append]
  · intro i h1
    by_cases h0d : i.today - i.startDate < 0
    · simp only [HeatmapPainter.main, if_pos h0d] at h1
      simp [appendCount] at h1
    cases hr : resolveNeed (normMode i.mode) i.pattern i.dailyGoal (i.today - i.startDate).toNat with
    | err =>
      simp only [HeatmapPainter.main, if_neg h0d, hr] at h1
      simp [appendCount] at h1
    | stop =>
      simp only [HeatmapPainter.main, if_neg h0d, hr] at h1
      simp [appendCount] at h1
    | need n =>
      cases hc : i.commitsToday with
      | none =>
        simp only [HeatmapPainter.main, if_neg h0d, hr, hc] at h1
        simp [appendCount] at h1
      | some c =>
        by_cases hh1 : n < (c : Int)
        · have hM : HeatmapPainter.main i = ⟨1, []⟩ := by
            simp only [HeatmapPainter.main, if_neg h0d, hr, hc]
            rw [if_pos hh1]
          rw [hM] at h1
          simp [appendCount] at h1
        by_cases hh2 : n ≤ 0
        · have hM : HeatmapPainter.main i = ⟨0, []⟩ := by
            simp only [HeatmapPainter.main, if_neg h0d, hr, hc]
            rw [if_neg hh1, if_pos hh2]
          rw [hM] at h1
          simp [appendCount] at h1
        by_cases hh3 : (c : Int) = n
        · have hM : HeatmapPainter.main i = ⟨0, []⟩ := by
            simp only [HeatmapPainter.main, if_neg h0d, hr, hc]
            rw [if_neg hh1, if_neg hh2, if_pos hh3]
          rw [hM] at h1
          simp [appendCount] at h1
        by_cases hh4 : n < (i.existing : Int)
        · have hM : HeatmapPainter.main i = ⟨1, []⟩ := by
            simp only [HeatmapPainter.main, if_neg h0d, hr, hc]
            rw [if_neg hh1, if_neg hh2, if_neg hh3, if_pos hh4]
          rw [hM] at h1
          simp [appendCount] at h1
        by_cases hh5 : (i.existing : Int) = n
        · have hM : HeatmapPainter.main i = ⟨0, []⟩ := by
            simp only [HeatmapPainter.main, if_neg h0d, hr, hc]
            rw [if_neg hh1, if_neg hh2, if_neg hh3, if_neg hh4, if_pos hh5]
          rw [hM] at h1
          simp [appendCount] at h1
        by_cases hh6 : i.gitAddOk = true
        · have hM : HeatmapPainter.main i
              = ⟨0, (List.range' (i.existing + 1) ((n - (i.existing : Int)).toNat)).map
                  (fun idx => Eff.appendLine (artifactPath (effDataDir i.dataDir) i.todayIso)
                    (lineFor (i.stamps idx) idx n (i.tokens idx)))
                  ++ [Eff.gitAdd (artifactPath (effDataDir i.dataDir) i.todayIso)]⟩ := by
            simp only [HeatmapPainter.main, if_neg h0d, hr, hc]
            rw [if_neg hh1, if_neg hh2, if_neg hh3, if_neg hh4, if_neg hh5, if_pos hh6]
          have hA : appendCount (HeatmapPainter.main i) = ((n : Int) - i.existing).toNat := by
            rw [hM]
            exact appendCount_written _ _ _ _ _ _ _ _ rfl
          have hEq : ((i.existing + appendCount (HeatmapPainter.main i) : Nat) : Int) = n := by
            rw [hA]; omega
          rw [hEq, hA, hM, if_pos hh6]
          exact ⟨by simp only [needOf, if_neg h0d, hr], rfl⟩
        · have hM : HeatmapPainter.main i
              = ⟨1, (List.range' (i.existing + 1) ((n - (i.existing : Int)).toNat)).map
                  (fun idx => Eff.appendLine (artifactPath (effDataDir i.dataDir) i.todayIso)
                    (lineFor (i.stamps idx) idx n (i.tokens idx)))⟩ := by
            simp only [HeatmapPainter.main, if_neg h0d, hr, hc]
            rw [if_neg hh1, if_neg hh2, if_neg hh3, if_neg hh4, if_neg hh5, if_neg hh6]
          have hw := appendCount_written 1 (artifactPath (effDataDir i.dataDir) i.todayIso)
            i.stamps i.tokens n (i.existing + 1) ((n - (i.existing : Int)).toNat) [] rfl
          simp only [List.append_nil] at hw
          have hA : appendCount (HeatmapPainter.main i) = ((n : Int) - i.existing).toNat := by
            rw [hM]
            exact hw
          have hEq : ((i.existing + appendCount (HeatmapPainter.main i) : Nat) : Int) = n := by
            rw [hA]; omega
          rw [hEq, hA, hM, if_neg hh6]
          exact ⟨by simp only [needOf, if_neg h0d, hr], by simp⟩

/-- C9 witness: the contract applied to `tickCleanWrite` (quota 2,
nothing on disk): no commit effect, quota 2, and the effect trace is the
two numbered appended lines followed by staging the artifact file. -/
theorem C9_record_writer_contract_witness :
    Eff.gitCommit "m" ∉ (HeatmapPainter.main tickCleanWrite).effects ∧
    needOf tickCleanWrite
      = some ((tickCleanWrite.existing
          + appendCount (HeatmapPainter.main tickCleanWrite) : Nat) : Int) ∧
    (HeatmapPainter.main tickCleanWrite).effects =
      (List.range' (tickCleanWrite.existing + 1)
          (appendCount (HeatmapPainter.main tickCleanWrite))).map
        (fun idx => Eff.appendLine
          (artifactPath (effDataDir tickCleanWrite.dataDir) tickCleanWrite.todayIso)
          (lineFor (tickCleanWrite.stamps idx) idx
            ((tickCleanWrite.existing
              + appendCount (HeatmapPainter.main tickCleanWrite) : Nat) : Int)
            (tickCleanWrite.tokens idx))) ++
      (if tickCleanWrite.gitAddOk
        then [Eff.gitAdd (artifactPath (effDataDir tickCleanWrite.dataDir)
          tickCleanWrite.todayIso)]
        else []) :=
  ⟨C9_record_writer_contract.1 tickCleanWrite "m",
   (C9_record_writer_contract.2 tickCleanWrite (by decide)).1,
   (C9_record_writer_contract.2 tickCleanWrite (by decide)).2⟩

